import Mathlib

/-!
Shallow embedding of `src/hydro/Gadget2/hydro_parameters.h` (SWIFT, Gadget-2
SPH parameter records): the viscosity, diffusion and MHD parameter structs and
their resolve / mock-init / report / snapshot-export functions.

Modelling conventions:
* C `float` values are modelled as exact rationals (`ℚ`): the fragment only
  copies configuration values and compares them against the literal `1.f`;
  no floating-point arithmetic occurs.
* The configuration source (`struct swift_params` and the `parser_get_*`
  functions) and the HDF5 / logging sinks are external collaborators that are
  only declared, not defined, in the fragment; they are modelled from the
  spec's contracts (see the doc comments below).
* Fatal `error(...)` termination is modelled by `Except String`: an
  `Except.error msg` result is a fatal abort carrying the message, and no
  parameter record is produced.
* The HDF5 attribute sink is modelled as the ordered list of attributes
  written so far; `io_write_attribute_f/i` append to it.  The logging sink is
  modelled likewise as the ordered list of emitted message lines.
-/

set_option autoImplicit false
set_option linter.unusedVariables false

/-- Modelled from the spec: the Config Source collaborator.  `struct
swift_params` is only forward-declared in the fragment; the spec's contract is
`getRequired(key)` (fails the run if the key is absent) and
`getOptional(key, default)` (returns the default if absent), with float and
int valued lookups kept apart. -/
structure swift_params where
  getFloat : String → Option ℚ
  getInt : String → Option ℤ

/-- Forward-declared `struct unit_system`; no function of the fragment reads it. -/
structure unit_system where
  unused : Unit

/-- Forward-declared `struct phys_const`; no function of the fragment reads it. -/
structure phys_const where
  unused : Unit

/-- Modelled from the spec: required float lookup (`getRequired`) — fatal if
the key is absent. -/
def parser_get_param_float (params : swift_params) (name : String) :
    Except String ℚ :=
  match params.getFloat name with
  | some v => Except.ok v
  | none => Except.error ("Missing required parameter: " ++ name)

/-- Modelled from the spec: optional float lookup (`getOptional`) with a
caller-supplied fallback. -/
def parser_get_opt_param_float (params : swift_params) (name : String)
    (fallback : ℚ) : ℚ :=
  (params.getFloat name).getD fallback

/-- Modelled from the spec: optional int lookup.  The fragment calls this with
no explicit fallback and the spec flags the fallback as unspecified; it is
modelled as 0 (cleaning disabled).  No claim below depends on this value. -/
def parser_get_opt_param_int (params : swift_params) (name : String) : ℤ :=
  (params.getInt name).getD 0

/-- `const_viscosity_beta` (compile-time constant, `3.0f`). -/
def const_viscosity_beta : ℚ := 3

/-- `hydro_props_default_viscosity_alpha` (compile-time default, `0.8f`). -/
def hydro_props_default_viscosity_alpha : ℚ := 0.8

/-- `struct mhd_global_data` (the `WITH_MHD` branch). -/
structure mhd_global_data where
  artificial_dissipation_constant : ℚ
  artificial_dissipation_minimum : ℚ
  artificial_dissipation_source : ℚ
  artificial_dissipation_timescale : ℚ
  with_div_B_cleaning : ℤ
  div_B_parabolic_sigma : ℚ
  div_B_over_clean_factor : ℚ
  deriving DecidableEq, Repr

/-- `struct viscosity_global_data`. -/
structure viscosity_global_data where
  alpha : ℚ
  deriving DecidableEq, Repr

/-- `struct diffusion_global_data` (no fields). -/
structure diffusion_global_data where
  deriving DecidableEq, Repr

/-- One attribute written to the snapshot metadata sink. -/
inductive Attr where
  | floatAttr (name : String) (value : ℚ)
  | intAttr (name : String) (value : ℤ)
  deriving DecidableEq, Repr

/-- The snapshot metadata sink: the ordered list of attributes written so far. -/
abbrev Sink := List Attr

/-- `io_write_attribute_f`: append a named float attribute to the sink. -/
def io_write_attribute_f (sink : Sink) (name : String) (value : ℚ) : Sink :=
  sink ++ [Attr.floatAttr name value]

/-- `io_write_attribute_i`: append a named int attribute to the sink. -/
def io_write_attribute_i (sink : Sink) (name : String) (value : ℤ) : Sink :=
  sink ++ [Attr.intAttr name value]

/-- One line emitted to the logging sink: either plain text or a format string
paired with the single float argument it prints. -/
inductive Msg where
  | plain (text : String)
  | withFloat (text : String) (value : ℚ)
  deriving DecidableEq, Repr

/-- The logging sink: the ordered list of message lines emitted so far. -/
abbrev Log := List Msg

/-- `message(text)` with no value argument. -/
def message (log : Log) (text : String) : Log :=
  log ++ [Msg.plain text]

/-- `message(fmt, value)` with one float argument. -/
def message_f (log : Log) (text : String) (value : ℚ) : Log :=
  log ++ [Msg.withFloat text value]

/-- `mhd_init`: resolve the MHD parameters from the configuration.  The four
dissipation constants and `div_B_parabolic_sigma` are required lookups;
`with_div_B_cleaning` and `div_B_over_clean_factor` are optional (the latter
with default `1.f`); finally the resolved `div_B_over_clean_factor` must be
`>= 1.f` or the run aborts with `error(...)`. -/
def mhd_init (params : swift_params) (us : unit_system) (pc : phys_const) :
    Except String mhd_global_data := do
  let adc ← parser_get_param_float params "SPH:artificial_dissipation_constant"
  let adm ← parser_get_param_float params "SPH:artificial_dissipation_minimum"
  let ads ← parser_get_param_float params "SPH:artificial_dissipation_source"
  let adt ← parser_get_param_float params "SPH:artificial_dissipation_timescale"
  let wdbc := parser_get_opt_param_int params "SPH:with_div_B_cleaning"
  let dbps ← parser_get_param_float params "SPH:div_B_parabolic_sigma"
  let dbocf := parser_get_opt_param_float params "SPH:div_B_over_clean_factor" 1
  if dbocf < 1 then
    Except.error "Cannot have div_B_over_clean_factor < 1."
  else
    Except.ok
      { artificial_dissipation_constant := adc
        artificial_dissipation_minimum := adm
        artificial_dissipation_source := ads
        artificial_dissipation_timescale := adt
        with_div_B_cleaning := wdbc
        div_B_parabolic_sigma := dbps
        div_B_over_clean_factor := dbocf }

/-- `mhd_init_no_hydro`: the MHD mock initializer (all fields zero). -/
def mhd_init_no_hydro : mhd_global_data :=
  { artificial_dissipation_constant := 0
    artificial_dissipation_minimum := 0
    artificial_dissipation_source := 0
    artificial_dissipation_timescale := 0
    with_div_B_cleaning := 0
    div_B_parabolic_sigma := 0
    div_B_over_clean_factor := 0 }

/-- `mhd_print`: the startup report for the MHD parameters.  NOTE: the source
body branches on `mhd->div_B_cleaning`, a field that `struct mhd_global_data`
does not declare (the declared field is `with_div_B_cleaning`), so the
fragment does not compile as written when `WITH_MHD` is defined.  This
embedding follows the evident intent — shared by the spec and by the parallel
`mhd_print_snapshot` — and branches on `with_div_B_cleaning`. -/
def mhd_print (log : Log) (mhd : mhd_global_data) : Log :=
  let log := message_f log "MHD artificial_dissipation_constant = %g"
    mhd.artificial_dissipation_constant
  let log := message_f log "MHD artificial_dissipation_minimum = %g"
    mhd.artificial_dissipation_minimum
  let log := message_f log "MHD artificial_dissipation_source = %g"
    mhd.artificial_dissipation_source
  let log := message_f log "MHD artificial_dissipation_timescale = %g"
    mhd.artificial_dissipation_timescale
  if mhd.with_div_B_cleaning ≠ 0 then
    let log := message log "MHD is running with divB cleaning ON."
    let log := message_f log "MHD div_B_parabolic_sigma = %g"
      mhd.div_B_parabolic_sigma
    message_f log "MHD div_B_over_clean_factor = %g"
      mhd.div_B_over_clean_factor
  else
    message log "MHD is running with divB cleaning OFF."

/-- `mhd_print_snapshot`: write the MHD attributes to the snapshot sink. -/
def mhd_print_snapshot (h_grpsph : Sink) (mhd : mhd_global_data) : Sink :=
  let s := io_write_attribute_f h_grpsph "Artificial dissipation constant"
    mhd.artificial_dissipation_constant
  let s := io_write_attribute_f s "Artificial dissipation minimum"
    mhd.artificial_dissipation_minimum
  let s := io_write_attribute_f s "Artificial dissipation source"
    mhd.artificial_dissipation_source
  let s := io_write_attribute_f s "Artificial dissipation timescale"
    mhd.artificial_dissipation_timescale
  let s := io_write_attribute_i s "divB cleaning turned on"
    mhd.with_div_B_cleaning
  if mhd.with_div_B_cleaning ≠ 0 then
    let s := io_write_attribute_f s "divB parabolic sigma"
      mhd.div_B_parabolic_sigma
    io_write_attribute_f s "divB over-cleaning factor"
      mhd.div_B_over_clean_factor
  else
    s

/-- `viscosity_init`: resolve the viscosity parameters; one optional lookup
with the compile-time default.  Total: no failure path. -/
def viscosity_init (params : swift_params) (us : unit_system)
    (pc : phys_const) : viscosity_global_data :=
  { alpha := parser_get_opt_param_float params "SPH:viscosity_alpha"
      hydro_props_default_viscosity_alpha }

/-- `viscosity_init_no_hydro`: the viscosity mock initializer. -/
def viscosity_init_no_hydro : viscosity_global_data :=
  { alpha := hydro_props_default_viscosity_alpha }

/-- `viscosity_print`: the startup report for the viscosity parameters. -/
def viscosity_print (log : Log) (viscosity : viscosity_global_data) : Log :=
  message_f log "Artificial viscosity parameters set to alpha: %.3f"
    viscosity.alpha

/-- `viscosity_print_snapshot`: write the viscosity attributes to the sink. -/
def viscosity_print_snapshot (h_grpsph : Sink)
    (viscosity : viscosity_global_data) : Sink :=
  let s := io_write_attribute_f h_grpsph "Alpha viscosity" viscosity.alpha
  io_write_attribute_f s "Beta viscosity" const_viscosity_beta

/-- `diffusion_init`: empty body. -/
def diffusion_init (params : swift_params) (us : unit_system)
    (pc : phys_const) : diffusion_global_data :=
  {}

/-- `diffusion_init_no_hydro`: empty body. -/
def diffusion_init_no_hydro : diffusion_global_data :=
  {}

/-- `diffusion_print`: empty body — emits nothing. -/
def diffusion_print (log : Log) (diffusion : diffusion_global_data) : Log :=
  log

/-- `diffusion_print_snapshot`: empty body — writes nothing. -/
def diffusion_print_snapshot (h_grpsph : Sink)
    (diffusion : diffusion_global_data) : Sink :=
  h_grpsph

/-- The five required float keys of `mhd_init`, in lookup order. -/
def mhdRequiredKeys : List String :=
  ["SPH:artificial_dissipation_constant",
   "SPH:artificial_dissipation_minimum",
   "SPH:artificial_dissipation_source",
   "SPH:artificial_dissipation_timescale",
   "SPH:div_B_parabolic_sigma"]

/-- All five required float keys of `mhd_init` are present. -/
def mhdRequiredPresent (params : swift_params) : Prop :=
  (params.getFloat "SPH:artificial_dissipation_constant").isSome = true ∧
  (params.getFloat "SPH:artificial_dissipation_minimum").isSome = true ∧
  (params.getFloat "SPH:artificial_dissipation_source").isSome = true ∧
  (params.getFloat "SPH:artificial_dissipation_timescale").isSome = true ∧
  (params.getFloat "SPH:div_B_parabolic_sigma").isSome = true

instance (params : swift_params) : Decidable (mhdRequiredPresent params) := by
  unfold mhdRequiredPresent
  infer_instance

/-- Build a configuration from association lists of float and int entries. -/
def mkParams (floats : List (String × ℚ)) (ints : List (String × ℤ)) :
    swift_params :=
  { getFloat := fun k => floats.lookup k
    getInt := fun k => ints.lookup k }

/-- A throwaway unit system (never read). -/
def us0 : unit_system := ⟨()⟩

/-- A throwaway physical-constants table (never read). -/
def pc0 : phys_const := ⟨()⟩

/-! ### Helper lemmas about `mhd_init` -/

/-- Characterization of `mhd_init` when every required key is present with the
given values: the result is the validation check applied to the resolved
optional `div_B_over_clean_factor`. -/
theorem mhd_init_char (params : swift_params) (us : unit_system)
    (pc : phys_const) (a b c d s : ℚ)
    (h1 : params.getFloat "SPH:artificial_dissipation_constant" = some a)
    (h2 : params.getFloat "SPH:artificial_dissipation_minimum" = some b)
    (h3 : params.getFloat "SPH:artificial_dissipation_source" = some c)
    (h4 : params.getFloat "SPH:artificial_dissipation_timescale" = some d)
    (h5 : params.getFloat "SPH:div_B_parabolic_sigma" = some s) :
    mhd_init params us pc =
      if (params.getFloat "SPH:div_B_over_clean_factor").getD 1 < 1 then
        Except.error "Cannot have div_B_over_clean_factor < 1."
      else
        Except.ok
          { artificial_dissipation_constant := a
            artificial_dissipation_minimum := b
            artificial_dissipation_source := c
            artificial_dissipation_timescale := d
            with_div_B_cleaning := (params.getInt "SPH:with_div_B_cleaning").getD 0
            div_B_parabolic_sigma := s
            div_B_over_clean_factor :=
              (params.getFloat "SPH:div_B_over_clean_factor").getD 1 } := by
  simp only [mhd_init, parser_get_param_float, parser_get_opt_param_float,
    parser_get_opt_param_int, h1, h2, h3, h4, h5, bind, Except.bind]

/-- If some required key is absent, `mhd_init` aborts with an error. -/
theorem mhd_init_missing_error (params : swift_params) (us : unit_system)
    (pc : phys_const) (h : ¬ mhdRequiredPresent params) :
    ∃ e, mhd_init params us pc = Except.error e := by
  unfold mhdRequiredPresent at h
  cases h1 : params.getFloat "SPH:artificial_dissipation_constant" with
  | none =>
      exact ⟨"Missing required parameter: " ++ "SPH:artificial_dissipation_constant",
        by simp only [mhd_init, parser_get_param_float, h1, bind, Except.bind]⟩
  | some a =>
  cases h2 : params.getFloat "SPH:artificial_dissipation_minimum" with
  | none =>
      exact ⟨"Missing required parameter: " ++ "SPH:artificial_dissipation_minimum",
        by simp only [mhd_init, parser_get_param_float, h1, h2, bind, Except.bind]⟩
  | some b =>
  cases h3 : params.getFloat "SPH:artificial_dissipation_source" with
  | none =>
      exact ⟨"Missing required parameter: " ++ "SPH:artificial_dissipation_source",
        by simp only [mhd_init, parser_get_param_float, h1, h2, h3, bind, Except.bind]⟩
  | some c =>
  cases h4 : params.getFloat "SPH:artificial_dissipation_timescale" with
  | none =>
      exact ⟨"Missing required parameter: " ++ "SPH:artificial_dissipation_timescale",
        by simp only [mhd_init, parser_get_param_float, h1, h2, h3, h4, bind, Except.bind]⟩
  | some d =>
  cases h5 : params.getFloat "SPH:div_B_parabolic_sigma" with
  | none =>
      exact ⟨"Missing required parameter: " ++ "SPH:div_B_parabolic_sigma",
        by simp only [mhd_init, parser_get_param_float, h1, h2, h3, h4, h5, bind, Except.bind]⟩
  | some s =>
      exact absurd ⟨by simp [h1], by simp [h2], by simp [h3], by simp [h4], by simp [h5]⟩ h

/-- If `mhd_init` succeeds, every required key was present and the resolved
`div_B_over_clean_factor` is the optional lookup's value and is `≥ 1`. -/
theorem mhd_init_ok_inv (params : swift_params) (us : unit_system)
    (pc : phys_const) (mhd : mhd_global_data)
    (h : mhd_init params us pc = Except.ok mhd) :
    mhdRequiredPresent params ∧
      mhd.div_B_over_clean_factor =
        (params.getFloat "SPH:div_B_over_clean_factor").getD 1 ∧
      1 ≤ mhd.div_B_over_clean_factor := by
  by_cases hreq : mhdRequiredPresent params
  · obtain ⟨q1, q2, q3, q4, q5⟩ := hreq
    obtain ⟨a, h1⟩ := Option.isSome_iff_exists.mp q1
    obtain ⟨b, h2⟩ := Option.isSome_iff_exists.mp q2
    obtain ⟨c, h3⟩ := Option.isSome_iff_exists.mp q3
    obtain ⟨d, h4⟩ := Option.isSome_iff_exists.mp q4
    obtain ⟨s, h5⟩ := Option.isSome_iff_exists.mp q5
    rw [mhd_init_char params us pc a b c d s h1 h2 h3 h4 h5] at h
    split at h
    · exact absurd h (by simp)
    · next hge =>
        cases h
        refine ⟨⟨by simp [h1], by simp [h2], by simp [h3], by simp [h4], by simp [h5]⟩, rfl, ?_⟩
        exact not_lt.mp hge
  · obtain ⟨e, he⟩ := mhd_init_missing_error params us pc hreq
    rw [he] at h
    exact absurd h (by simp)

/-! ### Concrete configurations used by the witnesses -/

/-- Float entries supplying the five required MHD keys. -/
def mhdBaseFloats : List (String × ℚ) :=
  [("SPH:artificial_dissipation_constant", 2),
   ("SPH:artificial_dissipation_minimum", 3),
   ("SPH:artificial_dissipation_source", 4),
   ("SPH:artificial_dissipation_timescale", 5),
   ("SPH:div_B_parabolic_sigma", 6)]

/-- All required MHD keys present, `div_B_over_clean_factor` omitted. -/
def cfgMhdNoFactor : swift_params := mkParams mhdBaseFloats []

/-- All required MHD keys present, explicit `div_B_over_clean_factor = 0`. -/
def cfgMhdLowFactor : swift_params :=
  mkParams (mhdBaseFloats ++ [("SPH:div_B_over_clean_factor", 0)]) []

/-- The required key `SPH:artificial_dissipation_constant` is absent. -/
def cfgMhdMissingConstant : swift_params := mkParams mhdBaseFloats.tail []

/-- The empty configuration. -/
def cfgEmpty : swift_params := mkParams [] []

/-- A configuration supplying `SPH:viscosity_alpha = 0.5`. -/
def cfgAlphaHalf : swift_params := mkParams [("SPH:viscosity_alpha", 0.5)] []

/-! ### Claims -/

/-- Claim C1: for every configuration that explicitly supplies a value
`v < 1` for `"SPH:div_B_over_clean_factor"`, `mhd_init` terminates fatally
with an error message and no record is produced; moreover (given the required
keys, so that resolution reaches the check) the validation error occurs
exactly when the resolved value is strictly less than `1`. -/
theorem mhd_init_rejects_low_clean_factor (params : swift_params)
    (us : unit_system) (pc : phys_const) (v : ℚ)
    (hv : params.getFloat "SPH:div_B_over_clean_factor" = some v) :
    (v < 1 → ∃ e, mhd_init params us pc = Except.error e) ∧
    (mhdRequiredPresent params →
      (mhd_init params us pc =
          Except.error "Cannot have div_B_over_clean_factor < 1." ↔ v < 1)) := by
  constructor
  · intro hlt
    by_cases hreq : mhdRequiredPresent params
    · obtain ⟨q1, q2, q3, q4, q5⟩ := hreq
      obtain ⟨a, h1⟩ := Option.isSome_iff_exists.mp q1
      obtain ⟨b, h2⟩ := Option.isSome_iff_exists.mp q2
      obtain ⟨c, h3⟩ := Option.isSome_iff_exists.mp q3
      obtain ⟨d, h4⟩ := Option.isSome_iff_exists.mp q4
      obtain ⟨s, h5⟩ := Option.isSome_iff_exists.mp q5
      refine ⟨"Cannot have div_B_over_clean_factor < 1.", ?_⟩
      rw [mhd_init_char params us pc a b c d s h1 h2 h3 h4 h5, hv]
      simp [hlt]
    · exact mhd_init_missing_error params us pc hreq
  · intro hreq
    obtain ⟨q1, q2, q3, q4, q5⟩ := hreq
    obtain ⟨a, h1⟩ := Option.isSome_iff_exists.mp q1
    obtain ⟨b, h2⟩ := Option.isSome_iff_exists.mp q2
    obtain ⟨c, h3⟩ := Option.isSome_iff_exists.mp q3
    obtain ⟨d, h4⟩ := Option.isSome_iff_exists.mp q4
    obtain ⟨s, h5⟩ := Option.isSome_iff_exists.mp q5
    rw [mhd_init_char params us pc a b c d s h1 h2 h3 h4 h5, hv]
    by_cases hlt : v < 1
    · simp [hlt]
    · simp [hlt]

/-- Witness for C1: a concrete configuration with explicit factor `0` fails
with the validation error message. -/
theorem mhd_init_rejects_low_clean_factor_witness :
    mhd_init cfgMhdLowFactor us0 pc0 =
      Except.error "Cannot have div_B_over_clean_factor < 1." :=
  ((mhd_init_rejects_low_clean_factor cfgMhdLowFactor us0 pc0 0 rfl).2
    (by decide)).mpr (by decide)

/-- Claim C5: for every configuration omitting `"SPH:div_B_over_clean_factor"`
while supplying the five required keys, `mhd_init` succeeds, the resolved
factor is exactly `1`, and the `≥ 1` validation passes at this boundary. -/
theorem mhd_init_default_clean_factor (params : swift_params)
    (us : unit_system) (pc : phys_const) (a b c d s : ℚ)
    (h1 : params.getFloat "SPH:artificial_dissipation_constant" = some a)
    (h2 : params.getFloat "SPH:artificial_dissipation_minimum" = some b)
    (h3 : params.getFloat "SPH:artificial_dissipation_source" = some c)
    (h4 : params.getFloat "SPH:artificial_dissipation_timescale" = some d)
    (h5 : params.getFloat "SPH:div_B_parabolic_sigma" = some s)
    (hnone : params.getFloat "SPH:div_B_over_clean_factor" = none) :
    ∃ mhd, mhd_init params us pc = Except.ok mhd ∧
      mhd.div_B_over_clean_factor = 1 ∧
      (1 : ℚ) ≤ mhd.div_B_over_clean_factor := by
  refine ⟨{ artificial_dissipation_constant := a
            artificial_dissipation_minimum := b
            artificial_dissipation_source := c
            artificial_dissipation_timescale := d
            with_div_B_cleaning := (params.getInt "SPH:with_div_B_cleaning").getD 0
            div_B_parabolic_sigma := s
            div_B_over_clean_factor := 1 }, ?_, rfl, le_refl 1⟩
  rw [mhd_init_char params us pc a b c d s h1 h2 h3 h4 h5, hnone]
  simp

/-- Witness for C5: the concrete configuration with the factor key omitted
resolves with factor exactly `1`. -/
theorem mhd_init_default_clean_factor_witness :
    ∃ mhd, mhd_init cfgMhdNoFactor us0 pc0 = Except.ok mhd ∧
      mhd.div_B_over_clean_factor = 1 ∧
      (1 : ℚ) ≤ mhd.div_B_over_clean_factor :=
  mhd_init_default_clean_factor cfgMhdNoFactor us0 pc0 2 3 4 5 6
    rfl rfl rfl rfl rfl rfl

/-- Claim C7: the five required lookups of `mhd_init` (the four dissipation
keys and `"SPH:div_B_parabolic_sigma"`) are mandatory: if any one is absent
the resolve aborts fatally with an error and no record is produced. -/
theorem mhd_init_missing_required_fatal (params : swift_params)
    (us : unit_system) (pc : phys_const) (k : String)
    (hk : k ∈ mhdRequiredKeys) (habs : params.getFloat k = none) :
    ∃ e, mhd_init params us pc = Except.error e := by
  apply mhd_init_missing_error params us pc
  intro hpres
  obtain ⟨q1, q2, q3, q4, q5⟩ := hpres
  simp only [mhdRequiredKeys, List.mem_cons, List.not_mem_nil, or_false] at hk
  rcases hk with rfl | rfl | rfl | rfl | rfl
  · rw [habs] at q1; simp at q1
  · rw [habs] at q2; simp at q2
  · rw [habs] at q3; simp at q3
  · rw [habs] at q4; simp at q4
  · rw [habs] at q5; simp at q5

/-- Witness for C7: a concrete configuration missing the first dissipation
key makes `mhd_init` fail. -/
theorem mhd_init_missing_required_fatal_witness :
    ∃ e, mhd_init cfgMhdMissingConstant us0 pc0 = Except.error e :=
  mhd_init_missing_required_fatal cfgMhdMissingConstant us0 pc0
    "SPH:artificial_dissipation_constant" (by decide) rfl

/-- Claim C4: `viscosity_init` is total (no failure path exists): omitting
`"SPH:viscosity_alpha"` resolves `alpha` to the default `0.8`, and supplying
any value `v` resolves `alpha` to `v`, with no range validation applied. -/
theorem viscosity_init_resolves_alpha (params : swift_params)
    (us : unit_system) (pc : phys_const) :
    (params.getFloat "SPH:viscosity_alpha" = none →
      (viscosity_init params us pc).alpha = 0.8) ∧
    (∀ v : ℚ, params.getFloat "SPH:viscosity_alpha" = some v →
      (viscosity_init params us pc).alpha = v) := by
  constructor
  · intro h
    simp [viscosity_init, parser_get_opt_param_float, h,
      hydro_props_default_viscosity_alpha]
  · intro v h
    simp [viscosity_init, parser_get_opt_param_float, h]

/-- Witness for C4: the empty configuration yields `alpha = 0.8` and the
configuration supplying `0.5` yields `alpha = 0.5`. -/
theorem viscosity_init_resolves_alpha_witness :
    (viscosity_init cfgEmpty us0 pc0).alpha = 0.8 ∧
    (viscosity_init cfgAlphaHalf us0 pc0).alpha = 0.5 :=
  ⟨(viscosity_init_resolves_alpha cfgEmpty us0 pc0).1 rfl,
   (viscosity_init_resolves_alpha cfgAlphaHalf us0 pc0).2 0.5 rfl⟩

/-- Claim C2: `mhd_print_snapshot` appends to the sink the four dissipation
attributes and the cleaning-flag attribute unconditionally (exact literal
names), followed by the attributes "divB parabolic sigma" and "divB
over-cleaning factor" exactly when `with_div_B_cleaning` is truthy (nonzero);
on an empty sink the two cleaning attributes are present iff the flag is
truthy. -/
theorem mhd_print_snapshot_attrs (sink : Sink) (mhd : mhd_global_data) :
    (mhd_print_snapshot sink mhd =
      sink ++
        [Attr.floatAttr "Artificial dissipation constant"
           mhd.artificial_dissipation_constant,
         Attr.floatAttr "Artificial dissipation minimum"
           mhd.artificial_dissipation_minimum,
         Attr.floatAttr "Artificial dissipation source"
           mhd.artificial_dissipation_source,
         Attr.floatAttr "Artificial dissipation timescale"
           mhd.artificial_dissipation_timescale,
         Attr.intAttr "divB cleaning turned on" mhd.with_div_B_cleaning] ++
        (if mhd.with_div_B_cleaning ≠ 0 then
          [Attr.floatAttr "divB parabolic sigma" mhd.div_B_parabolic_sigma,
           Attr.floatAttr "divB over-cleaning factor"
             mhd.div_B_over_clean_factor]
         else [])) ∧
    ((Attr.floatAttr "divB parabolic sigma" mhd.div_B_parabolic_sigma ∈
        mhd_print_snapshot [] mhd) ↔ mhd.with_div_B_cleaning ≠ 0) ∧
    ((Attr.floatAttr "divB over-cleaning factor" mhd.div_B_over_clean_factor ∈
        mhd_print_snapshot [] mhd) ↔ mhd.with_div_B_cleaning ≠ 0) := by
  refine ⟨?_, ?_, ?_⟩ <;>
    by_cases h : mhd.with_div_B_cleaning = 0 <;>
      simp [mhd_print_snapshot, io_write_attribute_f, io_write_attribute_i, h]

/-- Claim C3: `viscosity_print_snapshot` writes exactly two attributes —
"Alpha viscosity" with the resolved alpha and "Beta viscosity" with the
compile-time constant `3`; in particular, resolving a configuration that
supplies `SPH:viscosity_alpha = 0.5` and exporting writes
"Alpha viscosity" = 0.5 and "Beta viscosity" = 3. -/
theorem viscosity_print_snapshot_attrs :
    (∀ (sink : Sink) (viscosity : viscosity_global_data),
      viscosity_print_snapshot sink viscosity =
        sink ++ [Attr.floatAttr "Alpha viscosity" viscosity.alpha,
                 Attr.floatAttr "Beta viscosity" 3]) ∧
    viscosity_print_snapshot [] (viscosity_init cfgAlphaHalf us0 pc0) =
      [Attr.floatAttr "Alpha viscosity" 0.5,
       Attr.floatAttr "Beta viscosity" 3] := by
  constructor
  · intro sink viscosity
    simp [viscosity_print_snapshot, io_write_attribute_f, const_viscosity_beta]
  · rfl

/-- Claim C6 (intended behavior of the source; see the doc comment on
`mhd_print` about the nonexistent-field access in the source body):
`mhd_print` emits the four dissipation lines unconditionally, then, when
`with_div_B_cleaning` is truthy, the cleaning-ON line followed by the
`div_B_parabolic_sigma` and `div_B_over_clean_factor` values; when falsy,
only the cleaning-OFF line. -/
theorem mhd_print_lines (log : Log) (mhd : mhd_global_data) :
    mhd_print log mhd =
      log ++
        [Msg.withFloat "MHD artificial_dissipation_constant = %g"
           mhd.artificial_dissipation_constant,
         Msg.withFloat "MHD artificial_dissipation_minimum = %g"
           mhd.artificial_dissipation_minimum,
         Msg.withFloat "MHD artificial_dissipation_source = %g"
           mhd.artificial_dissipation_source,
         Msg.withFloat "MHD artificial_dissipation_timescale = %g"
           mhd.artificial_dissipation_timescale] ++
        (if mhd.with_div_B_cleaning ≠ 0 then
          [Msg.plain "MHD is running with divB cleaning ON.",
           Msg.withFloat "MHD div_B_parabolic_sigma = %g"
             mhd.div_B_parabolic_sigma,
           Msg.withFloat "MHD div_B_over_clean_factor = %g"
             mhd.div_B_over_clean_factor]
         else [Msg.plain "MHD is running with divB cleaning OFF."]) := by
  by_cases h : mhd.with_div_B_cleaning = 0 <;>
    simp [mhd_print, message, message_f, h]

/-- Claim C8: the mock initializers are constants — they take no input at
all, so every invocation yields the same record: the viscosity mock has
`alpha = 0.8` and every one of the seven MHD mock fields is zero. -/
theorem mock_init_values :
    viscosity_init_no_hydro.alpha = 0.8 ∧
    mhd_init_no_hydro.artificial_dissipation_constant = 0 ∧
    mhd_init_no_hydro.artificial_dissipation_minimum = 0 ∧
    mhd_init_no_hydro.artificial_dissipation_source = 0 ∧
    mhd_init_no_hydro.artificial_dissipation_timescale = 0 ∧
    mhd_init_no_hydro.with_div_B_cleaning = 0 ∧
    mhd_init_no_hydro.div_B_parabolic_sigma = 0 ∧
    mhd_init_no_hydro.div_B_over_clean_factor = 0 :=
  ⟨rfl, rfl, rfl, rfl, rfl, rfl, rfl, rfl⟩

/-- Claim C9: all four diffusion operations are no-ops: `diffusion_init`
ignores every input and yields the empty record (the same record as the
mock), `diffusion_print` emits no line, and `diffusion_print_snapshot`
writes no attribute — each sink is returned unchanged. -/
theorem diffusion_operations_noop :
    (∀ (params params' : swift_params) (us us' : unit_system)
        (pc pc' : phys_const),
      diffusion_init params us pc = diffusion_init params' us' pc' ∧
      diffusion_init params us pc = diffusion_init_no_hydro) ∧
    (∀ (log : Log) (diffusion : diffusion_global_data),
      diffusion_print log diffusion = log) ∧
    (∀ (sink : Sink) (diffusion : diffusion_global_data),
      diffusion_print_snapshot sink diffusion = sink) :=
  ⟨fun _ _ _ _ _ _ => ⟨rfl, rfl⟩, fun _ _ => rfl, fun _ _ => rfl⟩

/-- Claim C10: the MHD mock record has `div_B_over_clean_factor = 0`, which
violates the `≥ 1` bound, while every record produced by a successful
`mhd_init` satisfies it — the invariant holds only on the config-resolve
path, not for every initialized record. -/
theorem mhd_mock_breaks_clean_factor_invariant :
    mhd_init_no_hydro.div_B_over_clean_factor = 0 ∧
    ¬ (1 ≤ mhd_init_no_hydro.div_B_over_clean_factor) ∧
    ∀ (params : swift_params) (us : unit_system) (pc : phys_const)
      (mhd : mhd_global_data),
      mhd_init params us pc = Except.ok mhd →
        1 ≤ mhd.div_B_over_clean_factor := by
  refine ⟨rfl, by decide, ?_⟩
  intro params us pc mhd h
  exact (mhd_init_ok_inv params us pc mhd h).2.2

/-- Witness for C10: the resolve-path invariant instantiated at a concrete
successful `mhd_init` run. -/
theorem mhd_mock_breaks_clean_factor_invariant_witness :
    (1 : ℚ) ≤ (mhd_global_data.mk 2 3 4 5 0 6 1).div_B_over_clean_factor :=
  mhd_mock_breaks_clean_factor_invariant.2.2 cfgMhdNoFactor us0 pc0
    (mhd_global_data.mk 2 3 4 5 0 6 1) rfl
